import Mathlib

/-!
Verification of `noxfile-template.py`: a shallow embedding of its
configuration merging, version selection, test discovery, session
orchestration and repository-root lookup, together with theorems
settling the specification's claims.
-/

/-- A top-level directory entry: its name and whether it is a directory.
Models one element of `os.listdir(".")` / one candidate for `glob.glob`. -/
structure Entry where
  name : String
  isDir : Bool
deriving DecidableEq, Repr

/-- The state of the current directory as seen by `_session_tests`:
its entries and, for file names, their textual contents
(consulted only for files that exist). -/
structure DirState where
  entries : List Entry
  contents : String → String

/-- `os.path.exists(name)` relative to the current directory:
true when some top-level entry (file or directory) has this name. -/
def pathExists (st : DirState) (nm : String) : Bool :=
  st.entries.any (fun e => e.name == nm)

/-- `pre` is a prefix of `s` (kernel-computable `String.startsWith`). -/
def strStarts (s pre : String) : Bool :=
  pre.data.isPrefixOf s.data

/-- `suf` is a suffix of `s` (kernel-computable `String.endsWith`). -/
def strEnds (s suf : String) : Bool :=
  suf.data.isSuffixOf s.data

/-- `glob.glob("*_test.py")` membership: the name ends with `_test.py`,
and (glob's hidden-file rule, since the pattern does not start with a
dot) the name does not start with a dot.  Matches files and
directories alike, exactly as `glob` does. -/
def matchStarTest (nm : String) : Bool :=
  strEnds nm "_test.py" && !strStarts nm "."

/-- `glob.glob("test_*.py")` membership: the name starts with `test_`
and ends with `.py` (for names of this shape the two regions can never
overlap, so this is exactly fnmatch of `test_*.py`).  Matches files
and directories alike, exactly as `glob` does. -/
def matchTestStar (nm : String) : Bool :=
  strStarts nm "test_" && strEnds nm ".py"

/-- The `test_list` computed at the top of `_session_tests`:
`glob.glob("*_test.py") + glob.glob("test_*.py")` extended with
`glob.glob("tests")`.  The literal pattern `tests` has no magic
characters, so it matches any entry (file or directory) named
exactly `tests`. -/
def testList (entries : List Entry) : List String :=
  ((entries.filter (fun e => matchStarTest e.name)).map (fun e => e.name)
    ++ (entries.filter (fun e => matchTestStar e.name)).map (fun e => e.name))
    ++ (entries.filter (fun e => e.name == "tests")).map (fun e => e.name)

/-- The test-presence condition exactly as the specification words it:
a *source file* (non-directory) matching `*_test.py` or `test_*.py`
(pattern match on the name, no hidden-file rule), or a *directory*
literally named `tests`. -/
def testsPresentSpec (entries : List Entry) : Bool :=
  entries.any (fun e =>
    (!e.isDir && (strEnds e.name "_test.py"
      || (strStarts e.name "test_" && strEnds e.name ".py")))
    || (e.isDir && e.name == "tests"))

/-! ## Configuration: `TEST_CONFIG` and its merge with the override -/

/-- The value of one configuration option; the five recognized options
carry values of these shapes. -/
inductive ConfigValue where
  | strList (l : List String)
  | bool (b : Bool)
  | str (s : String)
  | optStr (o : Option String)
  | dict (d : List (String × String))
deriving DecidableEq, Repr

/-- Python `dict.update`: keys of `base` keep their position and take
the override's value when `upd` supplies one; keys of `upd` absent
from `base` are appended in `upd`'s order. -/
def dictUpdate {α : Type} (base upd : List (String × α)) : List (String × α) :=
  base.map (fun p => (p.1, ((List.lookup p.1 upd).getD p.2)))
    ++ upd.filter (fun p => (List.lookup p.1 base).isNone)

/-- The hard-coded `TEST_CONFIG` dict literal of the template (the
documented defaults, before the override is applied). -/
def TEST_CONFIG_default : List (String × ConfigValue) :=
  [("ignored_versions", ConfigValue.strList ["2.7", "3.7", "3.8", "3.10", "3.11", "3.12"]),
   ("enforce_type_hints", ConfigValue.bool false),
   ("gcloud_project_env", ConfigValue.str "GOOGLE_CLOUD_PROJECT"),
   ("pip_version_override", ConfigValue.optStr none),
   ("envs", ConfigValue.dict [])]

/-- The effective configuration: `TEST_CONFIG.update(TEST_CONFIG_OVERRIDE)`
applied to the defaults; `ov` is the override mapping (empty when no
`noxfile_config.py` is found). -/
def TEST_CONFIG (ov : List (String × ConfigValue)) : List (String × ConfigValue) :=
  dictUpdate TEST_CONFIG_default ov

/-- The effective configuration as a typed record, as the rest of the
template consumes it.  The field values of `defaultConfig` mirror
`TEST_CONFIG_default`. -/
structure TestConfig where
  ignored_versions : List String
  enforce_type_hints : Bool
  gcloud_project_env : String
  pip_version_override : Option String
  envs : List (String × String)

/-- The typed view of the default configuration. -/
def defaultConfig : TestConfig :=
  { ignored_versions := ["2.7", "3.7", "3.8", "3.10", "3.11", "3.12"]
    enforce_type_hints := false
    gcloud_project_env := "GOOGLE_CLOUD_PROJECT"
    pip_version_override := none
    envs := [] }

/-! ## Version selection -/

/-- `ALL_VERSIONS`: all versions used to test samples. -/
def ALL_VERSIONS : List String := ["2.7", "3.8", "3.9", "3.10", "3.11", "3.12", "3.13"]

/-- `IGNORED_VERSIONS` under the default configuration
(`TEST_CONFIG["ignored_versions"]`). -/
def IGNORED_VERSIONS : List String := defaultConfig.ignored_versions

/-- Python `<=` on strings, at the character-list level: code-point
lexicographic order. -/
def charListLe : List Char → List Char → Bool
  | [], _ => true
  | _ :: _, [] => false
  | a :: as, b :: bs =>
    decide (a.toNat < b.toNat) || (decide (a.toNat = b.toNat) && charListLe as bs)

/-- Python `<=` on strings: code-point lexicographic order. -/
def pyStrLe (a b : String) : Bool := charListLe a.data b.data

/-- `TESTED_VERSIONS`, parameterised by the configured ignored list:
`sorted([v for v in ALL_VERSIONS if v not in IGNORED_VERSIONS])`.
Python `sorted` on strings is an ascending stable sort in the
code-point lexicographic order `pyStrLe`, which stable insertion sort
by `pyStrLe` models. -/
def TESTED_VERSIONS (ignored : List String) : List String :=
  List.insertionSort (fun a b => pyStrLe a b = true)
    (ALL_VERSIONS.filter (fun v => !ignored.contains v))

/-! ## Local import names for the linter -/

/-- Index of the last `'.'` in the list, if any. -/
def lastDotIdx : List Char → Option Nat
  | [] => none
  | c :: rest =>
    match lastDotIdx rest with
    | some i => some (i + 1)
    | none => if c = '.' then some 0 else none

/-- `os.path.splitext` on a bare name: split at the last dot, unless
every character before that dot is itself a dot (then the name has no
extension, e.g. `.py` or `..py`). -/
def splitext (s : String) : String × String :=
  let l := s.data
  match lastDotIdx l with
  | some i =>
    if (l.take i).any (fun c => c ≠ '.') then (⟨l.take i⟩, ⟨l.drop i⟩) else (s, "")
  | none => (s, "")

/-- `needle in hay` on Python strings: substring containment. -/
def isSubstrOf (needle hay : List Char) : Bool :=
  hay.tails.any (fun t => needle.isPrefixOf t)

/-- `os.path.isdir(os.path.join(start_dir, nm))`: some entry of the
listing is a directory with this name. -/
def isdir (entries : List Entry) (nm : String) : Bool :=
  entries.any (fun e => e.name == nm && e.isDir)

/-- `_determine_local_import_names`, faithfully: for each listed entry,
split its name into `(basename, extension)`, and keep `basename` when
`extension == ".py"` or (the entry named `basename` is a directory and
— `basename not in ("__pycache__")`, which in Python is a substring
test against the string `"__pycache__"` — `basename` is not a
substring of `"__pycache__"`). -/
def _determine_local_import_names (entries : List Entry) : List String :=
  let file_ext_pairs := entries.map (fun e => splitext e.name)
  (file_ext_pairs.filter (fun p =>
      p.2 == ".py"
        || (isdir entries p.1 && !isSubstrOf p.1.data "__pycache__".data))).map
    (fun p => p.1)

/-- The local-import-names computation as the specification words it:
the basenames of the top-level Python files plus the names of the
top-level subdirectories other than `__pycache__`. -/
def localImportNamesSpec (entries : List Entry) : List String :=
  (entries.filter (fun e => !e.isDir && strEnds e.name ".py")).map (fun e => (splitext e.name).1)
    ++ (entries.filter (fun e => e.isDir && !(e.name == "__pycache__"))).map (fun e => e.name)

/-! ## Session effects, pytest environment, repository root, test task -/

/-- Errors a session task can abort with: an unbound Python local
(`NameError`/`UnboundLocalError`), a missing environment variable
(`KeyError` from `os.environ[...]`), a tool exiting with a
non-success code, or an explicit `raise Exception(msg)`. -/
inductive SessErr where
  | unboundLocal (nm : String)
  | keyError (k : String)
  | commandFailed (cmd : String) (code : Nat)
  | exception (msg : String)
deriving DecidableEq, Repr

/-- Observable tool-invocation effects of a session task, in order:
`session.install(*args)`, `session.run(cmd, *args, env=env)`,
`print(msg)`, and the caller-supplied post-install hook. -/
inductive Effect where
  | install (args : List String)
  | run (cmd : String) (args : List String) (env : List (String × String))
  | print (msg : String)
  | hook
deriving DecidableEq, Repr

/-- `get_pytest_env_vars`: reads `os.environ[TEST_CONFIG["gcloud_project_env"]]`
— a `KeyError` when unset — then builds `ret` mapping both
`GOOGLE_CLOUD_PROJECT` and `GCLOUD_PROJECT` to that value and applies
`ret.update(TEST_CONFIG["envs"])`. -/
def get_pytest_env_vars (cfg : TestConfig) (env : String → Option String) :
    Except SessErr (List (String × String)) :=
  match env cfg.gcloud_project_env with
  | none => Except.error (SessErr.keyError cfg.gcloud_project_env)
  | some v =>
    Except.ok (dictUpdate [("GOOGLE_CLOUD_PROJECT", v), ("GCLOUD_PROJECT", v)] cfg.envs)

/-- `PYTEST_COMMON_ARGS`. -/
def PYTEST_COMMON_ARGS : List String := ["--junitxml=sponge_log.xml"]

/-- The `success_codes=[0, 5]` argument of the pytest invocation. -/
def pytestSuccessCodes : List Nat := [0, 5]

/-- The bounded upward walk of `_get_repo_root`: at each of the `fuel`
steps, return the current directory if it contains a `.git` entry,
else move to its parent; `none` models the final
`raise Exception("Unable to detect repository root.")`. -/
def getRepoRootAux (hasGit : String → Bool) (parent : String → String) :
    Nat → String → Option String
  | 0, _ => none
  | n + 1, p => if hasGit p then some p else getRepoRootAux hasGit parent n (parent p)

/-- `_get_repo_root`: walk upward from the current directory for at
most 10 directories (`for i in range(10)`), abstracting the filesystem
by the `parent` map and the `hasGit` test (`Path(p / ".git").exists()`). -/
def _get_repo_root (hasGit : String → Bool) (parent : String → String)
    (cwd : String) : Option String :=
  getRepoRootAux hasGit parent 10 cwd

/-- `_session_tests`, faithfully: discover test files; if none, print
and return.  Otherwise install pip (pinned when overridden), install
`requirements.txt` (with `constraints.txt`, or `--use-pep517` when the
requirements text mentions `pyspark`, or `--only-binary :all`), read
and extend the `packages` text with `requirements-test.txt` — note
`packages` is *unbound* when `requirements.txt` was absent — install
the library from source when requested, run the post-install hook,
choose concurrency flags from the `packages` text, and run pytest with
`success_codes=[0, 5]` and the computed environment.  The result is
the ordered effect trace and the error the task aborts with, if any. -/
def _session_tests (st : DirState) (cfg : TestConfig)
    (installFromSource : Bool) (hasGit : String → Bool) (parent : String → String)
    (cwd : String) (postInstall : Bool) (env : String → Option String)
    (posargs : List String) (exitCode : Nat) :
    List Effect × Option SessErr :=
  let test_list := testList st.entries
  if test_list.length = 0 then
    ([Effect.print "No tests found, skipping directory."], none)
  else
    let pipEff :=
      match cfg.pip_version_override with
      | some pv => Effect.install ["pip==" ++ pv]
      | none => Effect.install ["--upgrade", "pip"]
    let reqStep : List Effect × Option String :=
      if pathExists st "requirements.txt" then
        let packages := st.contents "requirements.txt"
        if pathExists st "constraints.txt" then
          ([Effect.install ["-r", "requirements.txt", "-c", "constraints.txt",
              "--only-binary", ":all"]], some packages)
        else if isSubstrOf "pyspark".data packages.data then
          ([Effect.install ["-r", "requirements.txt", "--use-pep517"]], some packages)
        else
          ([Effect.install ["-r", "requirements.txt", "--only-binary", ":all"]], some packages)
      else ([], none)
    let trace1 := pipEff :: reqStep.1
    let rtStep : Except SessErr (List Effect × Option String) :=
      if pathExists st "requirements-test.txt" then
        match reqStep.2 with
        | none => Except.error (SessErr.unboundLocal "packages")
        | some packages =>
          let packages2 := packages ++ st.contents "requirements-test.txt"
          if pathExists st "constraints-test.txt" then
            Except.ok ([Effect.install ["-r", "requirements-test.txt", "-c",
                "constraints-test.txt", "--only-binary", ":all"]], some packages2)
          else
            Except.ok ([Effect.install ["-r", "requirements-test.txt",
                "--only-binary", ":all"]], some packages2)
      else Except.ok ([], reqStep.2)
    match rtStep with
    | Except.error e => (trace1, some e)
    | Except.ok (rtEffs, packages) =>
      let trace2 := trace1 ++ rtEffs
      let srcStep : Except SessErr (List Effect) :=
        if installFromSource then
          match _get_repo_root hasGit parent cwd with
          | none => Except.error (SessErr.exception "Unable to detect repository root.")
          | some r => Except.ok [Effect.install ["-e", r]]
        else Except.ok []
      match srcStep with
      | Except.error e => (trace2, some e)
      | Except.ok srcEffs =>
        let trace3 := trace2 ++ srcEffs ++ (if postInstall then [Effect.hook] else [])
        match packages with
        | none => (trace3, some (SessErr.unboundLocal "packages"))
        | some pkgs =>
          let concurrent_args :=
            if isSubstrOf "pytest-parallel".data pkgs.data then
              ["--workers", "auto", "--tests-per-worker", "auto"]
            else if isSubstrOf "pytest-xdist".data pkgs.data then
              ["-n", "auto"]
            else []
          match get_pytest_env_vars cfg env with
          | Except.error e => (trace3, some e)
          | Except.ok envDict =>
            let runEff := Effect.run "pytest"
              (PYTEST_COMMON_ARGS ++ posargs ++ concurrent_args) envDict
            if exitCode ∈ pytestSuccessCodes then (trace3 ++ [runEff], none)
            else (trace3 ++ [runEff], some (SessErr.commandFailed "pytest" exitCode))

/-! ## Concrete directory states used in closed statements -/

/-- A directory with one test file and a `requirements-test.txt` but no
`requirements.txt`. -/
def stOnlyReqTest : DirState :=
  ⟨[⟨"foo_test.py", false⟩, ⟨"requirements-test.txt", false⟩], fun _ => ""⟩

/-- A directory with one test file and none of the optional dependency
files. -/
def stBareTests : DirState :=
  ⟨[⟨"foo_test.py", false⟩], fun _ => ""⟩

/-- A directory with one test file and an empty `requirements.txt`. -/
def stWithReq : DirState :=
  ⟨[⟨"foo_test.py", false⟩, ⟨"requirements.txt", false⟩], fun _ => ""⟩

/-- An environment where only `GOOGLE_CLOUD_PROJECT` is set. -/
def envGcpSet : String → Option String :=
  fun k => if k == "GOOGLE_CLOUD_PROJECT" then some "my-project" else none

/-! ## Order lemmas for the lexicographic string order -/

theorem charListLe_total : ∀ a b : List Char, charListLe a b = true ∨ charListLe b a = true := by
  intro a
  induction a with
  | nil => intro b; left; rfl
  | cons x xs ih =>
    intro b
    cases b with
    | nil => right; rfl
    | cons y ys =>
      rcases Nat.lt_trichotomy x.toNat y.toNat with h | h | h
      · left; simp [charListLe, h]
      · rcases ih ys with h2 | h2
        · left; simp [charListLe, h, h2]
        · right; simp [charListLe, h.symm, h2]
      · right; simp [charListLe, h]

theorem charListLe_trans : ∀ a b c : List Char,
    charListLe a b = true → charListLe b c = true → charListLe a c = true := by
  intro a
  induction a with
  | nil => intro b c _ _; rfl
  | cons x xs ih =>
    intro b c hab hbc
    cases b with
    | nil => simp [charListLe] at hab
    | cons y ys =>
      cases c with
      | nil => simp [charListLe] at hbc
      | cons z zs =>
        simp only [charListLe, Bool.or_eq_true, Bool.and_eq_true, decide_eq_true_eq] at hab hbc ⊢
        rcases hab with h1 | ⟨h1, h1'⟩ <;> rcases hbc with h2 | ⟨h2, h2'⟩
        · exact Or.inl (h1.trans h2)
        · exact Or.inl (h2 ▸ h1)
        · exact Or.inl (h1 ▸ h2)
        · exact Or.inr ⟨h1.trans h2, ih ys zs h1' h2'⟩

instance : IsTotal String (fun a b => pyStrLe a b = true) :=
  ⟨fun a b => charListLe_total a.data b.data⟩

instance : IsTrans String (fun a b => pyStrLe a b = true) :=
  ⟨fun a b c => charListLe_trans a.data b.data c.data⟩

/-! ## Claim theorems -/

/-- **C1**: for every configured ignored-version list, `TESTED_VERSIONS`
has exactly the elements of `ALL_VERSIONS` not in the ignored list (as
a permutation of the filtered list) and is sorted ascending in the
string order Python `sorted` uses; and under the default configuration
(`IGNORED_VERSIONS`) it is non-empty. -/
theorem tested_versions_all_minus_ignored_sorted :
    (∀ ignored : List String,
      (TESTED_VERSIONS ignored).Perm (ALL_VERSIONS.filter (fun v => !ignored.contains v)) ∧
      List.Sorted (fun a b : String => pyStrLe a b = true) (TESTED_VERSIONS ignored)) ∧
    TESTED_VERSIONS IGNORED_VERSIONS ≠ [] := by
  refine ⟨fun ignored => ⟨List.perm_insertionSort _ _, List.sorted_insertionSort _ _⟩, ?_⟩
  decide

theorem getRepoRootAux_eq_none (hasGit : String → Bool) (parent : String → String) :
    ∀ (n : Nat) (cwd : String), (∀ j, j < n → hasGit (parent^[j] cwd) = false) →
      getRepoRootAux hasGit parent n cwd = none := by
  intro n
  induction n with
  | zero => intro cwd _; rfl
  | succ n ih =>
    intro cwd h
    have h0 : hasGit cwd = false := by simpa using h 0 (Nat.succ_pos n)
    simp only [getRepoRootAux, h0, Bool.false_eq_true, if_false]
    refine ih (parent cwd) (fun j hj => ?_)
    have := h (j + 1) (Nat.succ_lt_succ hj)
    simpa [Function.iterate_succ_apply] using this

theorem getRepoRootAux_eq_find (hasGit : String → Bool) (parent : String → String) :
    ∀ (n k : Nat) (cwd : String), k < n → hasGit (parent^[k] cwd) = true →
      (∀ j, j < k → hasGit (parent^[j] cwd) = false) →
      getRepoRootAux hasGit parent n cwd = some (parent^[k] cwd) := by
  intro n
  induction n with
  | zero => intro k cwd hk; exact absurd hk (Nat.not_lt_zero k)
  | succ n ih =>
    intro k cwd hk hgit hmin
    cases k with
    | zero =>
      simp only [Function.iterate_zero, id] at hgit ⊢
      simp [getRepoRootAux, hgit]
    | succ k =>
      have h0 : hasGit cwd = false := by simpa using hmin 0 (Nat.succ_pos k)
      simp only [getRepoRootAux, h0, Bool.false_eq_true, if_false]
      rw [Function.iterate_succ_apply] at hgit ⊢
      refine ih k (parent cwd) (Nat.lt_of_succ_lt_succ hk) hgit (fun j hj => ?_)
      have := hmin (j + 1) (Nat.succ_lt_succ hj)
      simpa [Function.iterate_succ_apply] using this

/-- **C2**: `_get_repo_root` returns the first directory, starting from
the current one and walking to parents, that contains a `.git` marker;
and it raises (`none`) when none of the 10 inspected ancestor levels
(the starting directory and its first 9 ancestors) contains one. -/
theorem get_repo_root_first_git_ancestor :
    (∀ (hasGit : String → Bool) (parent : String → String) (cwd : String) (k : Nat),
      k < 10 → hasGit (parent^[k] cwd) = true →
      (∀ j, j < k → hasGit (parent^[j] cwd) = false) →
      _get_repo_root hasGit parent cwd = some (parent^[k] cwd)) ∧
    (∀ (hasGit : String → Bool) (parent : String → String) (cwd : String),
      (∀ j, j < 10 → hasGit (parent^[j] cwd) = false) →
      _get_repo_root hasGit parent cwd = none) :=
  ⟨fun hasGit parent cwd k hk hgit hmin =>
      getRepoRootAux_eq_find hasGit parent 10 k cwd hk hgit hmin,
   fun hasGit parent cwd h => getRepoRootAux_eq_none hasGit parent 10 cwd h⟩

/-- Witness for **C2**: with every directory's parent being `r`, which
is the only directory holding a `.git` marker, the walk from `a` stops
at `r` (the first marked ancestor, one level up); with no marker
anywhere the walk from `a` raises. -/
theorem get_repo_root_first_git_ancestor_witness :
    _get_repo_root (fun s => s == "r") (fun _ => "r") "a" = some "r" ∧
    _get_repo_root (fun _ => false) (fun _ => "r") "a" = none := by
  constructor
  · have h := get_repo_root_first_git_ancestor.1 (fun s => s == "r") (fun _ => "r") "a" 1
      (by decide) (by decide) (by decide)
    simpa using h
  · exact get_repo_root_first_git_ancestor.2 (fun _ => false) (fun _ => "r") "a"
      (fun j _ => rfl)

/-- **C3**: when no directory entry matches any of the three test
discovery patterns, `_session_tests` only logs that no tests were
found and returns: the effect trace holds no install, run or hook
effect, and no error is raised. -/
theorem session_tests_no_tests_noop (st : DirState) (cfg : TestConfig)
    (ifs : Bool) (hasGit : String → Bool) (parent : String → String) (cwd : String)
    (hook : Bool) (env : String → Option String) (posargs : List String) (code : Nat)
    (h : ∀ e ∈ st.entries,
      matchStarTest e.name = false ∧ matchTestStar e.name = false ∧ e.name ≠ "tests") :
    _session_tests st cfg ifs hasGit parent cwd hook env posargs code
      = ([Effect.print "No tests found, skipping directory."], none) := by
  have hnil : testList st.entries = [] := by
    simp only [testList, List.append_eq_nil, List.map_eq_nil_iff, List.filter_eq_nil_iff]
    refine ⟨⟨fun e he => ?_, fun e he => ?_⟩, fun e he => ?_⟩
    · simp [(h e he).1]
    · simp [(h e he).2.1]
    · simp [(h e he).2.2]
  simp [_session_tests, hnil]

/-- Witness for **C3**: a directory holding only `app.py` (which
matches no test pattern) makes the task exit after the log line. -/
theorem session_tests_no_tests_noop_witness :
    _session_tests ⟨[⟨"app.py", false⟩], fun _ => ""⟩ defaultConfig false (fun _ => false)
      id "" false (fun _ => none) [] 0
      = ([Effect.print "No tests found, skipping directory."], none) :=
  session_tests_no_tests_noop _ _ _ _ _ _ _ _ _ _ (by decide)

theorem session_tests_stWithReq_eval (code : Nat) :
    _session_tests stWithReq defaultConfig false (fun _ => false) id "" false
      envGcpSet [] code
      = ([Effect.install ["--upgrade", "pip"],
          Effect.install ["-r", "requirements.txt", "--only-binary", ":all"],
          Effect.run "pytest" ["--junitxml=sponge_log.xml"]
            [("GOOGLE_CLOUD_PROJECT", "my-project"), ("GCLOUD_PROJECT", "my-project")]],
         if code ∈ pytestSuccessCodes then none
         else some (SessErr.commandFailed "pytest" code)) := by
  by_cases h : code ∈ pytestSuccessCodes <;> simp only [_session_tests, h] <;> rfl

/-- **C4**: the pytest invocation's success-code list holds exactly 0
and 5, and for a directory whose run is reached the task succeeds
exactly when the runner exits with 0 or 5, every other code being a
fatal failure of the task. -/
theorem pytest_exit_code_contract :
    (∀ code : Nat, code ∈ pytestSuccessCodes ↔ code = 0 ∨ code = 5) ∧
    (∀ code : Nat,
      (_session_tests stWithReq defaultConfig false (fun _ => false) id "" false
        envGcpSet [] code).2 = none ↔ (code = 0 ∨ code = 5)) := by
  constructor
  · intro code; simp [pytestSuccessCodes]
  · intro code
    rw [session_tests_stWithReq_eval]
    by_cases h : code ∈ pytestSuccessCodes
    · have hc : code = 0 ∨ code = 5 := by simpa [pytestSuccessCodes] using h
      simp [h, hc]
    · have hc : ¬(code = 0 ∨ code = 5) := by simpa [pytestSuccessCodes] using h
      simp [h, hc]

/-- **C5**: with an empty override mapping the effective configuration
is exactly the documented defaults, entry for entry. -/
theorem test_config_empty_override_is_default :
    TEST_CONFIG [] = TEST_CONFIG_default := by decide

theorem lookup_map_getD (upd : List (String × ConfigValue)) (k : String) :
    ∀ base : List (String × ConfigValue),
      List.lookup k (base.map (fun p => (p.1, (List.lookup p.1 upd).getD p.2)))
        = (List.lookup k base).map (fun v => (List.lookup k upd).getD v) := by
  intro base
  induction base with
  | nil => simp
  | cons a l ih =>
    obtain ⟨k1, v1⟩ := a
    simp only [List.map_cons, List.lookup_cons]
    by_cases h : (k == k1) = true
    · have hk : k = k1 := by simpa using h
      subst hk
      simp [h]
    · simp [h, ih]

theorem filter_lookup_isNone_eq_nil (base ov : List (String × ConfigValue))
    (hsub : ∀ p ∈ ov, (List.lookup p.1 base).isSome = true) :
    ov.filter (fun p => (List.lookup p.1 base).isNone) = [] := by
  rw [List.filter_eq_nil_iff]
  intro p hp
  rcases Option.isSome_iff_exists.mp (hsub p hp) with ⟨v, hv⟩
  simp [hv]

theorem lookup_eq_some_mem (k : String) (w : ConfigValue) :
    ∀ l : List (String × ConfigValue), List.lookup k l = some w → (k, w) ∈ l := by
  intro l
  induction l with
  | nil => intro h; exact absurd h (by simp)
  | cons a l ih =>
    obtain ⟨k1, v1⟩ := a
    intro h
    rw [List.lookup_cons] at h
    by_cases hk : (k == k1) = true
    · simp only [hk] at h
      have : k = k1 := by simpa using hk
      subst this
      simp [← Option.some_inj.mp h]
    · rw [Bool.not_eq_true] at hk
      simp only [hk] at h
      exact List.mem_cons_of_mem _ (ih h)

/-- **C6**: merging an override whose keys are all recognized keeps the
key set of the defaults unchanged, and every lookup yields the
override's value when the key was supplied and the default value
otherwise (`Option.or` of the two lookups). -/
theorem test_config_override_subset_merge (ov : List (String × ConfigValue))
    (hsub : ∀ p ∈ ov, (List.lookup p.1 TEST_CONFIG_default).isSome = true) :
    ((TEST_CONFIG ov).map (fun p => p.1) = TEST_CONFIG_default.map (fun p => p.1)) ∧
    (∀ k : String, List.lookup k (TEST_CONFIG ov)
      = ((List.lookup k ov).or (List.lookup k TEST_CONFIG_default))) := by
  have hfilter := filter_lookup_isNone_eq_nil TEST_CONFIG_default ov hsub
  constructor
  · simp [TEST_CONFIG, dictUpdate, hfilter]
  · intro k
    rw [TEST_CONFIG, dictUpdate, hfilter, List.append_nil, lookup_map_getD]
    cases hbase : List.lookup k TEST_CONFIG_default with
    | none =>
      cases hov : List.lookup k ov with
      | none => simp
      | some w =>
        have hmem := lookup_eq_some_mem k w ov hov
        have := hsub (k, w) hmem
        rw [hbase] at this
        simp at this
    | some v =>
      cases hov : List.lookup k ov with
      | none => simp [hov]
      | some w => simp [hov]

/-- Witness for **C6**: overriding only `enforce_type_hints` with
`True` yields a configuration whose `enforce_type_hints` is the
override's value while `gcloud_project_env` keeps its default. -/
theorem test_config_override_subset_merge_witness :
    List.lookup "enforce_type_hints" (TEST_CONFIG [("enforce_type_hints", ConfigValue.bool true)])
        = some (ConfigValue.bool true) ∧
    List.lookup "gcloud_project_env" (TEST_CONFIG [("enforce_type_hints", ConfigValue.bool true)])
        = some (ConfigValue.str "GOOGLE_CLOUD_PROJECT") := by
  have h := test_config_override_subset_merge
    [("enforce_type_hints", ConfigValue.bool true)] (by decide)
  constructor
  · rw [h.2 "enforce_type_hints"]; decide
  · rw [h.2 "gcloud_project_env"]; decide

theorem testList_eq_nil_iff (entries : List Entry) :
    testList entries = [] ↔ ∀ e ∈ entries,
      matchStarTest e.name = false ∧ matchTestStar e.name = false
        ∧ (e.name == "tests") = false := by
  simp only [testList, List.append_eq_nil, List.map_eq_nil_iff, List.filter_eq_nil_iff,
    Bool.not_eq_true]
  constructor
  · rintro ⟨⟨h1, h2⟩, h3⟩ e he
    exact ⟨h1 e he, h2 e he, h3 e he⟩
  · intro h
    exact ⟨⟨fun e he => (h e he).1, fun e he => (h e he).2.1⟩, fun e he => (h e he).2.2⟩

/-- Counterexample to **C7** as stated: a plain *file* named `tests`
is counted as a test by the code (the literal glob `tests` matches any
entry), though the claim's condition (directory named `tests`, or a
source file matching the patterns) does not hold; conversely the
hidden file `.x_test.py` matches the claim's `*_test.py` file pattern
but glob's hidden-file rule makes the code not count it. -/
theorem test_discovery_claim_counterexample :
    (testList [⟨"tests", false⟩] ≠ [] ∧ testsPresentSpec [⟨"tests", false⟩] = false) ∧
    (testList [⟨".x_test.py", false⟩] = [] ∧ testsPresentSpec [⟨".x_test.py", false⟩] = true) := by
  decide

/-- **C7** (amended): the test task considers tests present exactly
when some top-level entry — file or directory alike — matches
`*_test.py` (its name not starting with a dot, per glob's hidden-file
rule) or `test_*.py`, or is literally named `tests`. -/
theorem test_discovery_amended (entries : List Entry) :
    testList entries ≠ [] ↔ ∃ e ∈ entries,
      (matchStarTest e.name || matchTestStar e.name || e.name == "tests") = true := by
  rw [Ne, testList_eq_nil_iff]
  constructor
  · intro h
    by_contra hc
    push_neg at hc
    apply h
    intro e he
    have hb := hc e he
    cases hms : matchStarTest e.name <;> cases hts : matchTestStar e.name <;>
      cases ht : (e.name == "tests") <;> simp_all
  · rintro ⟨e, he, hor⟩ hall
    rcases hall e he with ⟨h1, h2, h3⟩
    simp [h1, h2, h3] at hor

/-- **C8**: `get_pytest_env_vars` raises a `KeyError` exactly when the
configured project environment variable is unset; when it is set to
`v`, the result maps both `GOOGLE_CLOUD_PROJECT` and `GCLOUD_PROJECT`
to `v` and then applies the user-supplied `envs` overrides on top. -/
theorem get_pytest_env_vars_spec :
    (∀ (cfg : TestConfig) (env : String → Option String),
      env cfg.gcloud_project_env = none →
      get_pytest_env_vars cfg env = Except.error (SessErr.keyError cfg.gcloud_project_env)) ∧
    (∀ (cfg : TestConfig) (env : String → Option String) (v : String),
      env cfg.gcloud_project_env = some v →
      get_pytest_env_vars cfg env
        = Except.ok (dictUpdate [("GOOGLE_CLOUD_PROJECT", v), ("GCLOUD_PROJECT", v)]
            cfg.envs)) := by
  constructor
  · intro cfg env h
    simp [get_pytest_env_vars, h]
  · intro cfg env v h
    simp [get_pytest_env_vars, h]

/-- Witness for **C8**: with nothing set the default configuration's
lookup fails with a `KeyError` on `GOOGLE_CLOUD_PROJECT`; with
`GOOGLE_CLOUD_PROJECT=my-project` both exposed variables carry
`my-project`. -/
theorem get_pytest_env_vars_spec_witness :
    get_pytest_env_vars defaultConfig (fun _ => none)
        = Except.error (SessErr.keyError defaultConfig.gcloud_project_env) ∧
    get_pytest_env_vars defaultConfig envGcpSet
        = Except.ok (dictUpdate
            [("GOOGLE_CLOUD_PROJECT", "my-project"), ("GCLOUD_PROJECT", "my-project")]
            defaultConfig.envs) :=
  ⟨get_pytest_env_vars_spec.1 defaultConfig (fun _ => none) rfl,
   get_pytest_env_vars_spec.2 defaultConfig envGcpSet "my-project" (by decide)⟩

/-- **C9** (code bug): on a listing holding a single subdirectory
named `cache`, `_determine_local_import_names` returns the empty list
— `basename not in ("__pycache__")` is a substring test against the
*string* `"__pycache__"` (the intended tuple is missing its comma), and
`"cache"` is a substring of `"__pycache__"` — while the documented
behaviour (exclude only the `__pycache__` cache directory) includes
`cache`. -/
theorem local_import_names_cache_bug :
    _determine_local_import_names [⟨"cache", true⟩] = [] ∧
    localImportNamesSpec [⟨"cache", true⟩] = ["cache"] := by
  decide

/-- **C10**: reachable directory states make `_session_tests` abort
with an uncaught unbound-local error on `packages`: a test file with
`requirements-test.txt` but no `requirements.txt` (the `packages +=`
read), and a test file with neither requirements file (the
`"pytest-parallel" in packages` check). -/
theorem session_tests_unbound_packages :
    (_session_tests stOnlyReqTest defaultConfig false (fun _ => false) id "" false
        (fun _ => none) [] 0).2 = some (SessErr.unboundLocal "packages") ∧
    (_session_tests stBareTests defaultConfig false (fun _ => false) id "" false
        (fun _ => none) [] 0).2 = some (SessErr.unboundLocal "packages") := by
  decide
